import Mathlib

/-!
Shallow embedding of the Robot_opr orchestrator core
(releases/current/orchestrator/*.py) and proofs about the claims of its
specification.  Pure data is modelled by Lean structures; each stateful
Python method becomes a Lean function threading an explicit state, with
the external world (process aliveness, spawn outcomes, HTTP responses)
supplied as oracle arguments describing what the OS/network answers
during the call.
-/

namespace RobotOpr

/-- Health-check configuration dictionary of a game
(per-game `healthcheck` object; the interface declares `type` a string,
`port` an integer, `path` a string; absent keys are `none`). -/
structure HealthCfg where
  type : Option String := none
  port : Option Int := none
  path : Option String := none
  deriving Repr, DecidableEq

/-- `manifest.GameEntry` (the fields the core reads). -/
structure GameEntry where
  id : String
  name : String
  exec : String
  synonyms : List String := []
  workdir : Option String := none
  args : List String := []
  env : List (String × String) := []
  healthcheck : HealthCfg := {}
  deriving Repr, DecidableEq

/-- `process_manager.ProcessExit`. -/
structure ProcessExit where
  game_id : Option String
  returncode : Option Int
  expected : Bool
  deriving Repr, DecidableEq

/-- A `psutil.Process` handle as the ProcessManager stores it,
identified by its pid.  `psutil.Process` defines no `returncode`
attribute, so the handle carries no exit code. -/
structure ProcHandle where
  pid : Nat
  deriving Repr, DecidableEq

/-- The ProcessManager slot: fields `_proc`, `_game`, `_stopping`. -/
structure PMState where
  proc : Option ProcHandle := none
  game : Option GameEntry := none
  stopping : Bool := false
  deriving Repr, DecidableEq

namespace ProcessManager

/-- `ProcessManager.is_running`: `self._proc is not None and
self._proc.is_running()`; `alive` is the answer `is_running()` gives. -/
def is_running (s : PMState) (alive : Bool) : Bool :=
  s.proc.isSome && alive

/-- `ProcessManager.current_game_id`. -/
def current_game_id (s : PMState) : Option String :=
  s.game.map (·.id)

/-- Exceptions `start` can raise: the `RuntimeError("a game is already
running")` guard, or the re-raised spawn exception from `Popen`. -/
inductive StartErr where
  | alreadyRunning
  | spawnError (msg : String)
  deriving Repr, DecidableEq

/-- World answers consumed by one `start` call: whether the stored
process (if any) answers `is_running()` with true, and the outcome of
`subprocess.Popen` (new pid, or the exception message). -/
structure StartEnv where
  alive : Bool
  spawn : Except String Nat
  deriving Repr

/-- `ProcessManager.start`.  Raising leaves the caller's state
unchanged, so errors return no new state. -/
def start (s : PMState) (env : StartEnv) (g : GameEntry) :
    Except StartErr PMState :=
  if is_running s env.alive then .error .alreadyRunning
  else
    match env.spawn with
    | .error msg => .error (.spawnError msg)
    | .ok pid =>
        .ok { proc := some { pid := pid }, game := some g, stopping := false }

/-- Termination signals `stop` can emit. -/
inductive Sig where
  | termChild (pid : Nat)
  | term
  | kill
  deriving Repr, DecidableEq

/-- World answers consumed by one `stop` call: whether the process
answers `is_running()` with true at entry, its descendant pids, which
signal operations raise (all absorbed by the code), whether the process
survives the graceful wait, and what the final `proc.wait(timeout=0)`
in the `finally` block yields (`some c` a code; `none` for
`TimeoutExpired`, `NoSuchProcess` or another `psutil.Error`). -/
structure StopEnv where
  running : Bool
  children : List Nat := []
  childTermFails : List Nat := []
  termFails : Bool := false
  aliveAfterGrace : Bool := false
  killFails : Bool := false
  waitAfterKillFails : Bool := false
  finalWait : Option Int := none
  deriving Repr, DecidableEq

/-- `ProcessManager.stop`.  Returns the exit record, the new slot state
and the list of termination signals sent. -/
def stop (s : PMState) (env : StopEnv) :
    Option ProcessExit × PMState × List Sig :=
  match s.proc with
  | none => (none, s, [])
  | some _ =>
      let game := s.game
      let sigs : List Sig :=
        if env.running then
          (env.children.map Sig.termChild) ++ [Sig.term] ++
            (if env.aliveAfterGrace then [Sig.kill] else [])
        else []
      (some { game_id := game.map (·.id), returncode := env.finalWait,
              expected := true },
       { proc := none, game := none, stopping := false }, sigs)

/-- Outcome of the non-blocking `proc.wait(timeout=0)` in `poll_exit`. -/
inductive PollWait where
  | timeoutExpired
  | code (c : Int)
  | noSuchProcess
  | psutilError
  deriving Repr, DecidableEq

/-- The exception `poll_exit` can raise: on the `NoSuchProcess` branch
the source reads `proc.returncode`, an attribute `psutil.Process` does
not define (only `psutil.wait_procs` sets `.returncode` dynamically,
never on a handle still held in the slot), so `AttributeError` is
raised there. -/
inductive PollErr where
  | attributeError
  deriving Repr, DecidableEq

/-- `ProcessManager.poll_exit`.  The `AttributeError` on the
`NoSuchProcess` branch escapes the method before the slot-clearing
assignments of lines 124-127 run; raising leaves the caller's state
unchanged, so the error case returns no new state. -/
def poll_exit (s : PMState) (w : PollWait) :
    Except PollErr (Option ProcessExit × PMState) :=
  match s.proc with
  | none => .ok (none, s)
  | some _ =>
      let game := s.game
      let finish :
          Option Int → Except PollErr (Option ProcessExit × PMState) :=
        fun rc =>
          .ok (some { game_id := game.map (·.id), returncode := rc,
                      expected := s.stopping },
               { proc := none, game := none, stopping := false })
      match w with
      | .timeoutExpired => .ok (none, s)
      | .code c => finish (some c)
      | .noSuchProcess => .error .attributeError
      | .psutilError => finish none

/-- One ProcessManager operation together with its world answers
(`start` is included so operation sequences can refill the slot). -/
inductive PMOp where
  | startOp (env : StartEnv) (g : GameEntry)
  | stopOp (env : StopEnv)
  | pollOp (w : PollWait)
  deriving Repr

/-- Apply one operation; returns the exit record it produced (if any)
and the next state. -/
def applyOp (s : PMState) (op : PMOp) : Option ProcessExit × PMState :=
  match op with
  | .startOp env g =>
      match start s env g with
      | .error _ => (none, s)
      | .ok s' => (none, s')
  | .stopOp env =>
      let r := stop s env
      (r.1, r.2.1)
  | .pollOp w =>
      match poll_exit s w with
      | .error _ => (none, s)
      | .ok r => r

/-- Run a sequence of operations, collecting the exit records. -/
def runOps (s : PMState) : List PMOp → List (Option ProcessExit) × PMState
  | [] => ([], s)
  | op :: ops =>
      let r := applyOp s op
      let rest := runOps r.2 ops
      (r.1 :: rest.1, rest.2)

/-- Whether an operation is a `start`. -/
def PMOp.isStart : PMOp → Bool
  | .startOp _ _ => true
  | _ => false

end ProcessManager

/-! ## IntentRouter (intent_router.py) -/

/-- A Python value as it can occur in a decoded JSON payload. -/
inductive PyVal where
  | none
  | bool (b : Bool)
  | int (n : Int)
  | str (s : String)
  | list (xs : List PyVal)
  | dict (entries : List (String × PyVal))
  deriving Repr

/-- ASCII lower-casing of one character (Python `str.lower` on the
ASCII payloads this system handles). -/
def pyCharLower (c : Char) : Char :=
  if 'A' ≤ c ∧ c ≤ 'Z' then Char.ofNat (c.toNat + 32) else c

/-- ASCII upper-casing of one character (Python `str.upper`). -/
def pyCharUpper (c : Char) : Char :=
  if 'a' ≤ c ∧ c ≤ 'z' then Char.ofNat (c.toNat - 32) else c

/-- Python `s.lower()`. -/
def pyStrLower (s : String) : String :=
  ⟨s.data.map pyCharLower⟩

/-- Python `s.upper()`. -/
def pyStrUpper (s : String) : String :=
  ⟨s.data.map pyCharUpper⟩

/-- Python `s.strip()`: whitespace removed from both ends. -/
def pyStrip (s : String) : String :=
  ⟨((s.data.dropWhile Char.isWhitespace).reverse.dropWhile
      Char.isWhitespace).reverse⟩

/-- Whether a payload value is a Python dict. -/
def PyVal.isDict : PyVal → Bool
  | .dict _ => true
  | _ => false

/-- Python truthiness of a payload value. -/
def PyVal.truthy : PyVal → Bool
  | .none => false
  | .bool b => b
  | .int n => n != 0
  | .str s => s ≠ ""
  | .list xs => !xs.isEmpty
  | .dict es => !es.isEmpty

/-- `payload.get(k)`: first binding of `k`, defaulting to Python `None`. -/
def dictGet (es : List (String × PyVal)) (k : String) : PyVal :=
  match es.find? (fun e => e.1 = k) with
  | Option.none => .none
  | Option.some e => e.2

/-- `v.upper()`: defined on strings only; anything else raises
`AttributeError` (modelled as `none`). -/
def pyUpper : PyVal → Option String
  | .str s => some (pyStrUpper s)
  | _ => Option.none

/-- The `Intent` dataclass (the fields handlers receive; `raw` is the
payload itself and is omitted). Field values are kept as Python values
because the code performs no type check on them. -/
structure IntentV where
  type : String
  game_name : PyVal
  source : PyVal
  deriving Repr

namespace IntentRouter

/-- Observable outcome of one `IntentRouter.dispatch` call. -/
inductive DispatchOut where
  | notDict
  | raised
  | ignored (t : String)
  | launch (i : IntentV)
  | exitCall (i : IntentV)
  deriving Repr

/-- `payload.get("type") or ""` followed by `.upper()` would act on this
value. -/
def typeVal (es : List (String × PyVal)) : PyVal :=
  if (dictGet es "type").truthy then dictGet es "type" else .str ""

/-- `game_name=payload.get("game_name") or payload.get("game")`. -/
def gameNameVal (es : List (String × PyVal)) : PyVal :=
  if (dictGet es "game_name").truthy then dictGet es "game_name"
  else dictGet es "game"

/-- `IntentRouter.dispatch`. -/
def dispatch (payload : PyVal) : DispatchOut :=
  match payload with
  | .dict es =>
      match pyUpper (typeVal es) with
      | Option.none => .raised
      | Option.some t =>
          let i : IntentV :=
            { type := t, game_name := gameNameVal es,
              source := dictGet es "source" }
          if t = "LAUNCH_GAME" then .launch i
          else if t = "BACK_HOME" ∨ t = "QUIT" then .exitCall i
          else .ignored t
  | _ => .notDict

/-- Number of handler invocations an outcome performs. -/
def handlersInvoked : DispatchOut → Nat
  | .launch _ => 1
  | .exitCall _ => 1
  | _ => 0

/-- The payloads on which `.upper()` cannot raise: `type` field absent,
falsy, or a string. -/
def typeFieldOk (es : List (String × PyVal)) : Bool :=
  match dictGet es "type" with
  | .str _ => true
  | v => !v.truthy

end IntentRouter

/-! ## Manifest.resolve (manifest.py) -/

/-- The loaded manifest tables: `_syn_to_id` and `_games`. -/
structure ManifestM where
  syn_to_id : List (String × String)
  games : List (String × GameEntry)
  deriving Repr

/-- Association-list lookup, as Python `dict.get`. -/
def tblGet {α : Type} (tbl : List (String × α)) (k : String) : Option α :=
  match tbl.find? (fun e => e.1 = k) with
  | Option.none => Option.none
  | Option.some e => some e.2

namespace Manifest

/-- The key `resolve` computes: `(spoken or "").lower().strip()`
(`none` models a Python `None` argument). -/
def normKey (spoken : Option String) : String :=
  pyStrip (pyStrLower (spoken.getD ""))

/-- `Manifest.resolve`, instrumented: the second component records
whether any table lookup was performed. -/
def resolveI (m : ManifestM) (spoken : Option String) :
    Option GameEntry × Bool :=
  let key := normKey spoken
  if key = "" then (Option.none, false)
  else
    match tblGet m.syn_to_id key with
    | Option.none => (Option.none, true)
    | Option.some gid => (tblGet m.games gid, true)

/-- `Manifest.resolve` as the callers see it. -/
def resolve (m : ManifestM) (spoken : Option String) : Option GameEntry :=
  (resolveI m spoken).1

end Manifest

/-! ## HealthChecker (healthcheck.py)

Real time is abstracted into the list of HTTP attempts the deadline
permits: each element is the outcome of one `session.get`, and the list
being exhausted is the overall deadline elapsing. -/

namespace HealthChecker

/-- Outcome of one GET attempt. -/
inductive AttemptRes where
  | status (code : Int)
  | transportError (msg : String)
  deriving Repr, DecidableEq

/-- `200 <= resp.status_code < 300`. -/
def isSuccess : AttemptRes → Bool
  | .status c => 200 ≤ c && c < 300
  | .transportError _ => false

/-- The string recorded in `last_error` for a failed attempt. -/
def attemptMsg : AttemptRes → String
  | .status c => "status=" ++ toString c
  | .transportError m => m

/-- The polling loop of `_wait_http`: result plus number of GET
requests issued. -/
def httpLoop (gameId : String) :
    List AttemptRes → Option String → Except String Unit × Nat
  | [], lastErr =>
      (.error ("healthcheck timeout for " ++ gameId ++ ": " ++
        lastErr.getD "no successful response"), 0)
  | a :: rest, _ =>
      if isSuccess a then (.ok (), 1)
      else
        let r := httpLoop gameId rest (some (attemptMsg a))
        (r.1, r.2 + 1)

/-- `HealthChecker._wait_http` (port check, then the loop). -/
def wait_http (g : GameEntry) (attempts : List AttemptRes) :
    Except String Unit × Nat :=
  match g.healthcheck.port with
  | Option.none => (.error "http healthcheck requires 'port'", 0)
  | Option.some _ => httpLoop g.id attempts Option.none

/-- `(cfg.get("type") or "none").lower()`. -/
def kindOf (cfg : HealthCfg) : String :=
  pyStrLower
    (match cfg.type with
     | Option.none => "none"
     | Option.some t => if t = "" then "none" else t)

/-- `HealthChecker.wait_until_healthy`: result plus number of network
requests made. -/
def wait_until_healthy (g : GameEntry) (attempts : List AttemptRes) :
    Except String Unit × Nat :=
  let kind := kindOf g.healthcheck
  if kind = "none" then (.ok (), 0)
  else if kind = "http" then wait_http g attempts
  else (.error ("unknown healthcheck type: " ++ kind), 0)

end HealthChecker

/-! ## Orchestrator (orchestrator.py) -/

namespace Orchestrator

/-- One `robot/state` publication: mode, `game_id`, `detail`. -/
structure Pub where
  mode : String
  game_id : Option String
  detail : String
  deriving Repr, DecidableEq

/-- Orchestrator state: the ProcessManager slot plus the chronological
list of publications. -/
structure OrchState where
  pm : PMState
  published : List Pub := []
  deriving Repr

/-- `Orchestrator._publish_state`: the payload's game id is
`game_id or self._pm.current_game_id`. -/
def publish_state (s : OrchState) (mode detail : String)
    (gid : Option String) : OrchState :=
  let g : Option String :=
    match gid with
    | Option.some x =>
        if x = "" then ProcessManager.current_game_id s.pm else some x
    | Option.none => ProcessManager.current_game_id s.pm
  { s with published :=
      s.published ++ [{ mode := mode, game_id := g, detail := detail }] }

/-- Python `str` of an optional exit code, as an f-string renders it. -/
def pyStrOfCode : Option Int → String
  | Option.none => "None"
  | Option.some c => toString c

/-- `exit_info.game_id or 'unknown'`. -/
def gidOrUnknown : Option String → String
  | Option.none => "unknown"
  | Option.some g => if g = "" then "unknown" else g

/-- `Orchestrator._handle_process_exit`. -/
def handle_process_exit (s : OrchState) (e? : Option ProcessExit) :
    OrchState :=
  match e? with
  | Option.none => s
  | Option.some e =>
      if e.expected then publish_state s "IDLE" "" Option.none
      else
        publish_state s "IDLE"
          ("game " ++ gidOrUnknown e.game_id ++ " crashed (code=" ++
            pyStrOfCode e.returncode ++ ")") Option.none

/-- `str(exc)` for the exceptions `ProcessManager.start` raises. -/
def startErrMsg : ProcessManager.StartErr → String
  | .alreadyRunning => "a game is already running"
  | .spawnError msg => msg

/-- World answers consumed by one `_handle_launch_intent` call. -/
structure LaunchEnv where
  runningAlive : Bool
  stopEnv : ProcessManager.StopEnv
  startEnv : ProcessManager.StartEnv
  attempts : List HealthChecker.AttemptRes
  cleanupStopEnv : ProcessManager.StopEnv
  deriving Repr

/-- `Orchestrator._handle_launch_intent` (`gameName` is
`intent.game_name` for a string-or-None payload field). -/
def handle_launch_intent (m : ManifestM) (env : LaunchEnv)
    (gameName : Option String) (s : OrchState) : OrchState :=
  let spoken := gameName.getD ""
  match Manifest.resolve m (some spoken) with
  | Option.none =>
      publish_state s "ERROR" ("unknown game: " ++ spoken) Option.none
  | Option.some game =>
      let s1 :=
        if ProcessManager.is_running s.pm env.runningAlive then
          let sA := publish_state s "STOPPING" "" Option.none
          let r := ProcessManager.stop sA.pm env.stopEnv
          handle_process_exit { sA with pm := r.2.1 } r.1
        else s
      let s2 := publish_state s1 "STARTING" "" (some game.id)
      match ProcessManager.start s2.pm env.startEnv game with
      | .error e =>
          let s3 := publish_state s2 "ERROR" (startErrMsg e) (some game.id)
          let r := ProcessManager.stop s3.pm env.cleanupStopEnv
          let s4 := { s3 with pm := r.2.1 }
          match r.1 with
          | Option.none => s4
          | Option.some ex => handle_process_exit s4 (some ex)
      | .ok pm' =>
          let s3 := { s2 with pm := pm' }
          match (HealthChecker.wait_until_healthy game env.attempts).1 with
          | .error msg =>
              let s4 := publish_state s3 "ERROR" msg (some game.id)
              let r := ProcessManager.stop s4.pm env.cleanupStopEnv
              let s5 := { s4 with pm := r.2.1 }
              match r.1 with
              | Option.none => s5
              | Option.some ex => handle_process_exit s5 (some ex)
          | .ok _ => publish_state s3 "RUNNING" "" (some game.id)

end Orchestrator

/-! ## Interleaving of `stop` and `poll_exit`

`Orchestrator.run` polls `poll_exit` on the main thread while the MQTT
client invokes the intent handlers (hence `stop`) on its own network
thread; neither `ProcessManager.__init__` nor the orchestrator creates
any lock.  This is a small-step model of the two methods running on
those two threads over the shared slot, at the granularity of the
source lines, scheduled by a list of booleans (`true` = run the next
atomic block of `poll_exit`, `false` = run `stop` to completion, which
is itself one legal schedule of its lines). -/

namespace Race

/-- Shared state plus the OS view of the single child process. -/
structure Conc where
  pm : PMState
  alive : Bool
  code : Int
  pollPc : Nat := 0
  pollProc : Option ProcHandle := Option.none
  pollGame : Option GameEntry := Option.none
  pollRet : Option (Option ProcessExit) := Option.none
  stopRet : Option (Option ProcessExit) := Option.none
  deriving Repr

/-- One atomic block of `poll_exit` on the polling thread:
pc 0 = lines 109-113 (check and capture the slot), pc 1 = lines
115-128 (`wait(timeout=0)` and, if the process is gone, reap and
classify with the marker's current value). -/
def pollStep (c : Conc) : Conc :=
  if c.pollRet.isSome then c
  else if c.pollPc = 0 then
    match c.pm.proc with
    | Option.none => { c with pollRet := some Option.none }
    | Option.some p =>
        { c with pollProc := some p, pollGame := c.pm.game, pollPc := 1 }
  else
    if c.alive then { c with pollRet := some Option.none }
    else
      let expected := c.pm.stopping
      { c with
          pm := { proc := Option.none, game := Option.none,
                  stopping := false },
          pollRet := some (some
            { game_id := c.pollGame.map (·.id),
              returncode := some c.code, expected := expected }) }

/-- `stop` run to completion on the message thread (lines 64-106): set
the marker, terminate the process, reap it in the `finally` block,
clear the slot and marker, return an expected exit. -/
def stopStep (c : Conc) : Conc :=
  if c.stopRet.isSome then c
  else
    match c.pm.proc with
    | Option.none => { c with stopRet := some Option.none }
    | Option.some _ =>
        let game := c.pm.game
        let rc : Option Int := some c.code
        { c with
            alive := false
            pm := { proc := Option.none, game := Option.none,
                    stopping := false }
            stopRet := some (some
              { game_id := game.map (·.id), returncode := rc,
                expected := true }) }

/-- Run a schedule (`true` = polling thread, `false` = message thread). -/
def run (c : Conc) (sched : List Bool) : Conc :=
  sched.foldl (fun c b => if b then pollStep c else stopStep c) c

end Race

/-! ## Concrete fixtures shared by witnesses and counterexamples -/

/-- A concrete game entry. -/
def gA : GameEntry := { id := "game-a", name := "A", exec := "a.exe" }

/-- A second concrete game entry. -/
def gB : GameEntry := { id := "game-b", name := "B", exec := "b.exe" }

/-- A slot occupied by a handle for `gA`, no stop in flight. -/
def occupiedA : PMState :=
  { proc := some { pid := 1 }, game := some gA, stopping := false }

/-! ## Claims about the ProcessManager -/

/-- C1 counterexample: the claim says `start` fails with
`AlreadyRunning` in every state whose slot is occupied; but with the
slot occupied by `gA` and the stored process no longer running,
`start gB` succeeds and silently replaces the slot contents. -/
theorem C1_counterexample :
    ProcessManager.start occupiedA { alive := false, spawn := .ok 2 } gB =
      .ok { proc := some { pid := 2 }, game := some gB,
            stopping := false } :=
  rfl

/-- C1 (amended): `start` fails with `AlreadyRunning` — leaving the
state untouched, since it raises before any assignment — exactly when
the slot is occupied and the stored process still answers
`is_running()` with true; when the slot holds an already-exited
process, a successful spawn replaces it, so the manager still never
holds two live processes (the slot stores at most one handle). -/
theorem C1_start_already_running (s : PMState)
    (env : ProcessManager.StartEnv) (g : GameEntry)
    (hocc : s.proc.isSome = true) :
    (env.alive = true →
      ProcessManager.start s env g = .error .alreadyRunning) ∧
    (env.alive = false → ∀ pid, env.spawn = .ok pid →
      ProcessManager.start s env g =
        .ok { proc := some { pid := pid }, game := some g,
              stopping := false }) := by
  constructor
  · intro ha
    simp [ProcessManager.start, ProcessManager.is_running, hocc, ha]
  · intro ha pid hs
    simp [ProcessManager.start, ProcessManager.is_running, hocc, ha, hs]

/-- C1 witness: the amended theorem at the occupied slot with a live
process. -/
theorem C1_start_already_running_witness :
    ProcessManager.start occupiedA { alive := true, spawn := .ok 2 } gB =
      .error .alreadyRunning :=
  (C1_start_already_running occupiedA { alive := true, spawn := .ok 2 }
    gB rfl).1 rfl

/-- C3: `stop` on an empty slot returns `None`, sends no termination
signals and changes nothing; on an occupied slot it returns an
expected `ProcessExit` carrying the exit code when obtainable
(`finalWait`), and on every exit path — for arbitrary signal-failure
behaviour in `env` — the slot is left empty with the stop-in-flight
marker cleared. -/
theorem C3_stop_spec (s : PMState) (env : ProcessManager.StopEnv) :
    (s.proc = Option.none →
      ProcessManager.stop s env = (Option.none, s, [])) ∧
    (s.proc.isSome = true →
      (ProcessManager.stop s env).1 =
        some { game_id := s.game.map (·.id),
               returncode := env.finalWait, expected := true } ∧
      (ProcessManager.stop s env).2.1 =
        { proc := Option.none, game := Option.none,
          stopping := false }) := by
  cases h : s.proc with
  | none => simp [ProcessManager.stop, h]
  | some p => simp [ProcessManager.stop, h]

/-- C3 witness: a stop on the occupied slot whose graceful terminate
fails, with final exit code 9. -/
theorem C3_stop_spec_witness :
    (ProcessManager.stop occupiedA
      { running := true, termFails := true, finalWait := some 9 }).1 =
        some { game_id := some "game-a", returncode := some 9,
               expected := true } ∧
    (ProcessManager.stop occupiedA
      { running := true, termFails := true, finalWait := some 9 }).2.1 =
        { proc := Option.none, game := Option.none, stopping := false } :=
  (C3_stop_spec occupiedA
    { running := true, termFails := true, finalWait := some 9 }).2 rfl

/-- C4: the claim says that whenever the slot is occupied and the
process has exited, `poll_exit` captures the exit code best-effort,
clears the slot and returns a classified `ProcessExit`.  On the
`NoSuchProcess` branch the source instead reads `proc.returncode` — an
attribute `psutil.Process` does not define — so `AttributeError`
escapes `poll_exit` and the slot and the stop-in-flight marker are
left set: no exit record is produced and the slot is not cleared. -/
theorem C4_poll_exit_attribute_error :
    ProcessManager.poll_exit occupiedA .noSuchProcess =
      .error .attributeError :=
  rfl

/-- Producing an exit record leaves the slot empty. -/
lemma applyOp_exit_clears (s : PMState) (op : ProcessManager.PMOp)
    (e : ProcessExit) (h : (ProcessManager.applyOp s op).1 = some e) :
    (ProcessManager.applyOp s op).2.proc = Option.none := by
  cases op with
  | startOp env g =>
      cases hs : ProcessManager.start s env g <;>
        simp [ProcessManager.applyOp, hs] at h
  | stopOp env =>
      cases hp : s.proc with
      | none => simp [ProcessManager.applyOp, ProcessManager.stop, hp] at h
      | some p => simp [ProcessManager.applyOp, ProcessManager.stop, hp]
  | pollOp w =>
      cases hp : s.proc with
      | none =>
          simp [ProcessManager.applyOp, ProcessManager.poll_exit, hp] at h
      | some p =>
          cases w <;>
            simp [ProcessManager.applyOp, ProcessManager.poll_exit, hp]
              at h ⊢

/-- On an empty slot, `stop` and `poll_exit` return no record and keep
the slot empty. -/
lemma applyOp_empty (s : PMState) (op : ProcessManager.PMOp)
    (hns : op.isStart = false) (hp : s.proc = Option.none) :
    ProcessManager.applyOp s op = (Option.none, s) := by
  cases op with
  | startOp env g => simp [ProcessManager.PMOp.isStart] at hns
  | stopOp env => simp [ProcessManager.applyOp, ProcessManager.stop, hp]
  | pollOp w =>
      simp [ProcessManager.applyOp, ProcessManager.poll_exit, hp]

/-- From an empty slot, a `start`-free operation sequence yields no
exit records. -/
lemma runOps_empty_none (ops : List ProcessManager.PMOp) :
    ∀ s : PMState, s.proc = Option.none →
      ops.all (fun o => !o.isStart) = true →
      (ProcessManager.runOps s ops).1.all (·.isNone) = true := by
  induction ops with
  | nil => intro s _ _; simp [ProcessManager.runOps]
  | cons o rest ih =>
      intro s hp hall
      rw [List.all_cons, Bool.and_eq_true] at hall
      obtain ⟨ho, hrest⟩ := hall
      have hstep := applyOp_empty s o (by simpa using ho) hp
      simp only [ProcessManager.runOps, hstep, List.all_cons]
      rw [Bool.and_eq_true]
      exact ⟨rfl, ih s hp hrest⟩

/-- C5: once a `stop` or `poll_exit` has produced a `ProcessExit`
record, every subsequent sequence of `stop`/`poll_exit` calls (no new
`start`) yields only `None`: exactly one exit record per termination,
under the serialized execution the concurrency contract prescribes. -/
theorem C5_exit_reported_once (s : PMState) (op : ProcessManager.PMOp)
    (ops : List ProcessManager.PMOp) (e : ProcessExit)
    (hop : (ProcessManager.applyOp s op).1 = some e)
    (hns : ops.all (fun o => !o.isStart) = true) :
    (ProcessManager.runOps (ProcessManager.applyOp s op).2 ops).1.all
      (·.isNone) = true :=
  runOps_empty_none ops _ (applyOp_exit_clears s op e hop) hns

/-- C5 witness: after a `stop` reports the exit of `gA`, a further
`stop` and a `poll_exit` both report nothing. -/
theorem C5_exit_reported_once_witness :
    (ProcessManager.runOps
      (ProcessManager.applyOp occupiedA (.stopOp { running := true })).2
      [.stopOp { running := false }, .pollOp (.code 0)]).1.all
        (·.isNone) = true :=
  C5_exit_reported_once occupiedA (.stopOp { running := true })
    [.stopOp { running := false }, .pollOp (.code 0)]
    { game_id := some "game-a", returncode := Option.none,
      expected := true } rfl rfl

/-! ## Claim about the concurrency contract -/

/-- The racy schedule: the polling thread checks and captures the
occupied slot (poll lines 109-113), a full `stop()` then runs on the
message thread, and the polling thread resumes at `wait(timeout=0)`. -/
def raceFinal : Race.Conc :=
  Race.run
    { pm := { proc := some { pid := 7 }, game := some gA,
              stopping := false },
      alive := true, code := 0 }
    [true, false, true]

/-- C2: neither `ProcessManager.__init__` nor the orchestrator creates
any lock, and the MQTT network thread runs `stop` while the main loop
runs `poll_exit`.  Under the schedule `raceFinal` — a legal thread
interleaving of the unserialized code — BOTH calls return a
`ProcessExit` for the same single termination, and `poll_exit`
misclassifies it as unexpected: exactly the interleaving the claimed
critical section would make impossible. -/
theorem C2_no_mutual_exclusion :
    raceFinal.stopRet =
      some (some { game_id := some "game-a", returncode := some 0,
                   expected := true }) ∧
    raceFinal.pollRet =
      some (some { game_id := some "game-a", returncode := some 0,
                   expected := false }) :=
  ⟨rfl, rfl⟩

/-! ## Claims about the IntentRouter -/

/-- C7 counterexample: a dict payload whose `type` field is the truthy
non-string `5` makes `dispatch` raise `AttributeError`
(`(payload.get("type") or "").upper()` is called on an int),
contradicting the claim that no exception ever escapes `dispatch`. -/
theorem C7_counterexample :
    IntentRouter.dispatch (.dict [("type", .int 5)]) = .raised :=
  rfl

/-- A successfully uppercased type never leads to the raising outcome. -/
lemma dispatch_ne_raised_of_some (es : List (String × PyVal))
    (t : String) (h : pyUpper (IntentRouter.typeVal es) = some t) :
    IntentRouter.dispatch (.dict es) ≠ .raised := by
  simp only [IntentRouter.dispatch, h]
  split_ifs <;> simp

/-- When the `type` field is absent, falsy, or a string, uppercasing
succeeds. -/
lemma typeVal_upper_of_ok (es : List (String × PyVal))
    (h : IntentRouter.typeFieldOk es = true) :
    ∃ t, pyUpper (IntentRouter.typeVal es) = some t := by
  unfold IntentRouter.typeFieldOk at h
  unfold IntentRouter.typeVal
  cases hv : dictGet es "type" with
  | str s =>
      by_cases hs : (PyVal.str s).truthy <;> simp [hv, hs, pyUpper]
  | none => simp [hv, pyUpper, PyVal.truthy]
  | bool b =>
      rw [hv] at h
      simp only [Bool.not_eq_true'] at h
      simp [hv, h, pyUpper]
  | int n =>
      rw [hv] at h
      simp only [Bool.not_eq_true'] at h
      simp [hv, h, pyUpper]
  | list xs =>
      rw [hv] at h
      simp only [Bool.not_eq_true'] at h
      simp [hv, h, pyUpper]
  | dict d =>
      rw [hv] at h
      simp only [Bool.not_eq_true'] at h
      simp [hv, h, pyUpper]

/-- A truthy non-string `type` field makes `dispatch` raise. -/
lemma dispatch_raised_of_bad (es : List (String × PyVal))
    (h : IntentRouter.typeFieldOk es = false) :
    IntentRouter.dispatch (.dict es) = .raised := by
  unfold IntentRouter.typeFieldOk at h
  cases hv : dictGet es "type" with
  | str s => rw [hv] at h; simp at h
  | none => rw [hv] at h; simp [PyVal.truthy] at h
  | bool b =>
      rw [hv] at h
      simp only [Bool.not_eq_false'] at h
      simp [IntentRouter.dispatch, IntentRouter.typeVal, hv, h, pyUpper]
  | int n =>
      rw [hv] at h
      simp only [Bool.not_eq_false'] at h
      simp [IntentRouter.dispatch, IntentRouter.typeVal, hv, h, pyUpper]
  | list xs =>
      rw [hv] at h
      simp only [Bool.not_eq_false'] at h
      simp [IntentRouter.dispatch, IntentRouter.typeVal, hv, h, pyUpper]
  | dict d =>
      rw [hv] at h
      simp only [Bool.not_eq_false'] at h
      simp [IntentRouter.dispatch, IntentRouter.typeVal, hv, h, pyUpper]

/-- C7 (amended): `dispatch` logs and returns, invoking no handler, on
every non-dict payload, and never raises on a dict payload whose
`type` field is absent, falsy, or a string; a dict payload with a
truthy non-string `type` field raises `AttributeError` before any
handler is invoked. -/
theorem C7_dispatch_raises (payload : PyVal) :
    (payload.isDict = false →
      IntentRouter.dispatch payload = .notDict ∧
      IntentRouter.handlersInvoked (IntentRouter.dispatch payload) = 0) ∧
    (∀ es, payload = .dict es →
      (IntentRouter.dispatch payload = .raised ↔
        IntentRouter.typeFieldOk es = false)) ∧
    (IntentRouter.dispatch payload = .raised →
      IntentRouter.handlersInvoked (IntentRouter.dispatch payload) = 0) := by
  refine ⟨?_, ?_, ?_⟩
  · intro h
    cases payload <;>
      simp_all [PyVal.isDict, IntentRouter.dispatch,
        IntentRouter.handlersInvoked]
  · intro es hes
    subst hes
    constructor
    · intro hr
      by_contra hok
      rw [Bool.not_eq_false] at hok
      obtain ⟨t, ht⟩ := typeVal_upper_of_ok es hok
      exact dispatch_ne_raised_of_some es t ht hr
    · exact dispatch_raised_of_bad es
  · intro h
    rw [h]
    rfl

/-- C7 witness: the amended theorem at the non-dict payload `3`. -/
theorem C7_dispatch_raises_witness :
    IntentRouter.dispatch (.int 3) = .notDict ∧
    IntentRouter.handlersInvoked (IntentRouter.dispatch (.int 3)) = 0 :=
  (C7_dispatch_raises (.int 3)).1 rfl

/-- C8: routing of an associative payload: uppercased type
`LAUNCH_GAME` invokes only the launch handler, with the spoken name
from `game_name` falling back to `game` and `source` from the payload;
`BACK_HOME` or `QUIT` invokes only the exit handler; any other type
invokes no handler; and no dispatch call invokes more than one
handler. -/
theorem C8_dispatch_routing (es : List (String × PyVal)) :
    IntentRouter.handlersInvoked (IntentRouter.dispatch (.dict es)) ≤ 1 ∧
    (∀ t, pyUpper (IntentRouter.typeVal es) = some t →
      (t = "LAUNCH_GAME" →
        IntentRouter.dispatch (.dict es) =
          .launch { type := t,
                    game_name := IntentRouter.gameNameVal es,
                    source := dictGet es "source" }) ∧
      ((t = "BACK_HOME" ∨ t = "QUIT") →
        IntentRouter.dispatch (.dict es) =
          .exitCall { type := t,
                      game_name := IntentRouter.gameNameVal es,
                      source := dictGet es "source" }) ∧
      (t ≠ "LAUNCH_GAME" → t ≠ "BACK_HOME" → t ≠ "QUIT" →
        IntentRouter.dispatch (.dict es) = .ignored t)) := by
  constructor
  · cases h : IntentRouter.dispatch (.dict es) <;>
      simp [IntentRouter.handlersInvoked]
  · intro t ht
    refine ⟨?_, ?_, ?_⟩
    · intro h1
      subst h1
      simp [IntentRouter.dispatch, ht]
    · intro h2
      rcases h2 with h2 | h2 <;> subst h2 <;>
        simp [IntentRouter.dispatch, ht]
    · intro h1 h2 h3
      simp [IntentRouter.dispatch, ht, h1, h2, h3]

/-- C8 witness: a lowercase `launch_game` payload with `game_name`
"X" invokes only the launch handler with spoken name "X". -/
theorem C8_dispatch_routing_witness :
    IntentRouter.dispatch
      (.dict [("type", .str "launch_game"), ("game_name", .str "X")]) =
      .launch { type := "LAUNCH_GAME", game_name := .str "X",
                source := .none } :=
  ((C8_dispatch_routing
    [("type", .str "launch_game"), ("game_name", .str "X")]).2
    "LAUNCH_GAME" (by decide)).1 rfl

/-! ## Claim about the HealthChecker -/

/-- If every attempt fails, the polling loop reports the deadline
error carrying the message of the last attempt (or the carried-in
`lastErr`, or the generic text, when there is none). -/
lemma httpLoop_all_fail (gid : String)
    (attempts : List HealthChecker.AttemptRes) :
    ∀ lastErr : Option String,
      attempts.all (fun a => !HealthChecker.isSuccess a) = true →
      (HealthChecker.httpLoop gid attempts lastErr).1 =
        .error ("healthcheck timeout for " ++ gid ++ ": " ++
          ((attempts.map HealthChecker.attemptMsg).getLast?.getD
            (lastErr.getD "no successful response"))) := by
  induction attempts with
  | nil => intro lastErr _; simp [HealthChecker.httpLoop]
  | cons a rest ih =>
      intro lastErr hall
      rw [List.all_cons, Bool.and_eq_true] at hall
      obtain ⟨ha, hrest⟩ := hall
      rw [Bool.not_eq_true'] at ha
      simp only [HealthChecker.httpLoop, ha, Bool.false_eq_true,
        if_false]
      rw [ih (some (HealthChecker.attemptMsg a)) hrest]
      congr 1
      simp only [List.map_cons]
      cases hr : rest with
      | nil => simp
      | cons b rs =>
          simp only [List.map_cons, List.getLast?_cons_cons]
          obtain ⟨z, hz⟩ := Option.isSome_iff_exists.mp
            (List.getLast?_isSome.mpr
              (List.cons_ne_nil (HealthChecker.attemptMsg b)
                (rs.map HealthChecker.attemptMsg)))
          rw [hz]
          rfl

/-- C9: `wait_until_healthy` fails immediately, issuing no network
request, both for an http check with no configured port and for any
kind other than `none` and `http`; and when every attempt before the
deadline fails, the error carries the last observed failure (HTTP
status or transport error text), or the generic "no successful
response" when no response was ever obtained. -/
theorem C9_healthcheck_errors (g : GameEntry)
    (attempts : List HealthChecker.AttemptRes) :
    (HealthChecker.kindOf g.healthcheck = "http" →
      g.healthcheck.port = Option.none →
      HealthChecker.wait_until_healthy g attempts =
        (.error "http healthcheck requires 'port'", 0)) ∧
    (HealthChecker.kindOf g.healthcheck ≠ "none" →
      HealthChecker.kindOf g.healthcheck ≠ "http" →
      HealthChecker.wait_until_healthy g attempts =
        (.error ("unknown healthcheck type: " ++
          HealthChecker.kindOf g.healthcheck), 0)) ∧
    (HealthChecker.kindOf g.healthcheck = "http" →
      g.healthcheck.port.isSome = true →
      attempts.all (fun a => !HealthChecker.isSuccess a) = true →
      (HealthChecker.wait_until_healthy g attempts).1 =
        .error ("healthcheck timeout for " ++ g.id ++ ": " ++
          ((attempts.map HealthChecker.attemptMsg).getLast?.getD
            "no successful response"))) := by
  refine ⟨?_, ?_, ?_⟩
  · intro hk hp
    simp [HealthChecker.wait_until_healthy, hk, HealthChecker.wait_http,
      hp]
  · intro h1 h2
    simp [HealthChecker.wait_until_healthy, h1, h2]
  · intro hk hp hall
    cases hps : g.healthcheck.port with
    | none => rw [hps] at hp; simp at hp
    | some p =>
        simp only [HealthChecker.wait_until_healthy, hk]
        rw [if_neg (by decide : ¬("http" : String) = "none")]
        simp only [if_true]
        simp only [HealthChecker.wait_http, hps]
        exact httpLoop_all_fail g.id attempts Option.none hall

/-- A game whose health check is `http` on port 8080. -/
def gH : GameEntry :=
  { id := "game-h", name := "H", exec := "h.exe",
    healthcheck := { type := some "http", port := some 8080 } }

/-- C9 witness: a 500 response followed by a transport error and then
the deadline: the error reports the transport error text. -/
theorem C9_healthcheck_errors_witness :
    (HealthChecker.wait_until_healthy gH
      [.status 500, .transportError "boom"]).1 =
      .error "healthcheck timeout for game-h: boom" :=
  (C9_healthcheck_errors gH [.status 500, .transportError "boom"]).2.2
    rfl rfl rfl

/-! ## Claim about Manifest.resolve -/

/-- C10: `resolve` returns `None` and performs no table lookup whenever
the spoken text is `None`, empty, or whitespace-only; for every other
text a lookup is performed, and the result depends only on the
lowercased, whitespace-stripped key, so matching is insensitive to
letter case and to surrounding whitespace in the query. -/
theorem C10_resolve_normalized (m : ManifestM) :
    (∀ spoken, Manifest.normKey spoken = "" →
      Manifest.resolveI m spoken = (Option.none, false)) ∧
    (∀ spoken, Manifest.normKey spoken ≠ "" →
      (Manifest.resolveI m spoken).2 = true) ∧
    (∀ s1 s2 : Option String,
      Manifest.normKey s1 = Manifest.normKey s2 →
      Manifest.resolve m s1 = Manifest.resolve m s2) := by
  refine ⟨?_, ?_, ?_⟩
  · intro spoken h
    simp [Manifest.resolveI, h]
  · intro spoken h
    simp only [Manifest.resolveI, h, if_false]
    cases tblGet m.syn_to_id (Manifest.normKey spoken) <;> simp
  · intro s1 s2 h
    simp [Manifest.resolve, Manifest.resolveI, h]

/-- A concrete manifest with `gB` registered under "b" and "game-b". -/
def mB : ManifestM :=
  { syn_to_id := [("b", "game-b"), ("game-b", "game-b")],
    games := [("game-b", gB)] }

/-- C10 witness: whitespace-only input resolves to `None` with no
lookup, and a padded upper-case query resolves like its normalized
form. -/
theorem C10_resolve_normalized_witness :
    Manifest.resolveI mB (some "   ") = (Option.none, false) ∧
    Manifest.resolve mB (some "  B ") = Manifest.resolve mB (some "b") :=
  ⟨(C10_resolve_normalized mB).1 (some "   ") rfl,
   (C10_resolve_normalized mB).2.2 (some "  B ") (some "b") rfl⟩

/-! ## Claim about the Orchestrator swap -/

/-- Oracles for a clean swap: the current process is alive, stops with
exit code 0, the new spawn succeeds as pid 2, and the new game's
health check (kind `none`) succeeds with no attempts. -/
def envSwap : Orchestrator.LaunchEnv :=
  { runningAlive := true,
    stopEnv := { running := true, finalWait := some 0 },
    startEnv := { alive := false, spawn := .ok 2 },
    attempts := [],
    cleanupStopEnv := { running := false } }

/-- The launch of "B" while `gA` is running. -/
def swapRun : Orchestrator.OrchState :=
  Orchestrator.handle_launch_intent mB envSwap (some "B")
    { pm := occupiedA, published := [] }

/-- C6 counterexample: the successful swap does not publish the mode
sequence Stopping-Starting-Running: the classification of A's expected
exit publishes an Idle between Stopping and Starting. -/
theorem C6_counterexample :
    swapRun.published.map (·.mode) ≠ ["STOPPING", "STARTING", "RUNNING"] := by
  decide

/-- C6 (amended): launching a resolved game while another is running
publishes `Stopping` (with the old game's id), calls
`ProcessManager.stop` and classifies the resulting expected exit —
publishing the `Idle` that classification produces — and only then
proceeds to the start sequence, so a successful swap publishes
Stopping(A), Idle, Starting(B), Running(B): stop-then-start, never a
direct replace. -/
theorem C6_swap_sequence (m : ManifestM) (env : Orchestrator.LaunchEnv)
    (name : Option String) (s : Orchestrator.OrchState)
    (gOld gNew : GameEntry) (p : ProcHandle)
    (hres : Manifest.resolve m (some (name.getD "")) = some gNew)
    (hproc : s.pm.proc = some p) (hgame : s.pm.game = some gOld)
    (halive : env.runningAlive = true)
    (hid : gNew.id ≠ "")
    (hspawn : ∃ pid, env.startEnv.spawn = .ok pid)
    (hhealth :
      (HealthChecker.wait_until_healthy gNew env.attempts).1 = .ok ()) :
    (Orchestrator.handle_launch_intent m env name s).published =
      s.published ++
        [{ mode := "STOPPING", game_id := some gOld.id, detail := "" },
         { mode := "IDLE", game_id := Option.none, detail := "" },
         { mode := "STARTING", game_id := some gNew.id, detail := "" },
         { mode := "RUNNING", game_id := some gNew.id, detail := "" }] := by
  obtain ⟨pid, hsp⟩ := hspawn
  simp [Orchestrator.handle_launch_intent, hres,
    Orchestrator.publish_state, ProcessManager.is_running, hproc,
    halive, ProcessManager.stop, Orchestrator.handle_process_exit,
    ProcessManager.current_game_id, hgame, ProcessManager.start, hsp,
    hhealth, hid]

/-- C6 witness: the amended theorem at the concrete swap. -/
theorem C6_swap_sequence_witness :
    swapRun.published =
      [{ mode := "STOPPING", game_id := some "game-a", detail := "" },
       { mode := "IDLE", game_id := Option.none, detail := "" },
       { mode := "STARTING", game_id := some "game-b", detail := "" },
       { mode := "RUNNING", game_id := some "game-b", detail := "" }] :=
  C6_swap_sequence mB envSwap (some "B")
    { pm := occupiedA, published := [] } gA gB { pid := 1 } rfl rfl rfl
    rfl (by decide) ⟨2, rfl⟩ rfl

end RobotOpr
